import Mathlib

/-!
Verification development for the OracleVM Option Settlement & Collateral
Engine (`src/contracts/src`): a shallow embedding of the pool accounting
(`pool_manager.rs`), the option contract entity (`option_contract.rs`),
the settlement engine (`settlement.rs`) and the Taproot script builder
(`bitcoin_option.rs`), together with theorems settling the specification's
claims about them.

Modelling conventions:
* `u64` values are `Nat`; where the Rust code performs plain `u64`
  multiplication that can overflow (release-mode wrap-around), the model
  takes the product `% 2^64`.  `bitcoin::Amount` arithmetic panics on
  overflow/underflow instead of wrapping; those panicking executions are
  outside the model, and `Nat` subtraction is used where the code has
  already guarded against underflow.
* Rust `HashMap`s are association lists with unique keys
  (insert-replaces, in-place update).
* Methods taking `&mut self` and returning `Result<T>` become functions
  `State → ... → Except String T × State`, returning the unchanged state
  together with the error on every early-return path, exactly as the
  Rust code leaves `self` untouched when it returns `Err` before any
  mutation.
* `SystemTime::now()` is threaded in as an explicit `now : Nat` argument.
-/

namespace OracleVM

/-! Component: Association-list maps (model of `std::collections::HashMap`) -/

/-- First binding for a key, like `HashMap::get`. -/
def lookupA {κ α : Type} [DecidableEq κ] (k : κ) : List (κ × α) → Option α
  | [] => none
  | (k', v) :: t => if k = k' then some v else lookupA k t

/-- Drop every binding of `k`, like `HashMap::remove` (keys are unique). -/
def eraseA {κ α : Type} [DecidableEq κ] (k : κ) : List (κ × α) → List (κ × α)
  | [] => []
  | (k', v) :: t => if k' = k then eraseA k t else (k', v) :: eraseA k t

/-- Bind `k` to `v`, replacing any previous binding, like `HashMap::insert`. -/
def insertA {κ α : Type} [DecidableEq κ] (k : κ) (v : α) (l : List (κ × α)) : List (κ × α) :=
  (k, v) :: eraseA k l

/-- Update the binding of `k` in place, like mutating through `HashMap::get_mut`. -/
def updateA {κ α : Type} [DecidableEq κ] (k : κ) (f : α → α) : List (κ × α) → List (κ × α)
  | [] => []
  | (k', v) :: t => if k = k' then (k', f v) :: t else (k', v) :: updateA k f t

theorem lookupA_eraseA {κ α : Type} [DecidableEq κ] (k : κ) (l : List (κ × α)) :
    lookupA k (eraseA k l) = none := by
  induction l with
  | nil => rfl
  | cons p t ih =>
    rcases p with ⟨k', v⟩
    by_cases hk : k' = k
    · simpa [eraseA, hk] using ih
    · simp only [eraseA, hk, if_false, lookupA]
      rw [if_neg (fun h' => hk h'.symm)]
      exact ih

theorem lookupA_insertA {κ α : Type} [DecidableEq κ] (k : κ) (v : α) (l : List (κ × α)) :
    lookupA k (insertA k v l) = some v := by
  simp [insertA, lookupA]

theorem lookupA_updateA {κ α : Type} [DecidableEq κ] (k : κ) (f : α → α) (l : List (κ × α)) :
    lookupA k (updateA k f l) = (lookupA k l).map f := by
  induction l with
  | nil => rfl
  | cons h t ih =>
    rcases h with ⟨k', v⟩
    by_cases hk : k = k'
    · simp [updateA, lookupA, hk]
    · simp [updateA, lookupA, hk, ih]

/-! Component: CollateralPool (`pool_manager.rs`)

Fields `pool_address`, `pool_utxos` and the delta/height bookkeeping of
`PoolState` play no role in any claim and are omitted; everything the
claims touch is modelled. -/

/-- The aggregate counters of `PoolState` (`pool_manager.rs:18-29`).
Amounts are satoshis (`bitcoin::Amount` in the source). -/
structure PoolState where
  total_liquidity : Nat
  available_liquidity : Nat
  locked_collateral : Nat
  total_shares : Nat
  total_premium_collected : Nat
  total_payout : Nat
  deriving Repr, DecidableEq

/-- Rust `PoolState::new` (`pool_manager.rs:32-45`): all counters zero. -/
def PoolState.new : PoolState :=
  { total_liquidity := 0, available_liquidity := 0, locked_collateral := 0
    total_shares := 0, total_premium_collected := 0, total_payout := 0 }

/-- A liquidity provider record (`pool_manager.rs:8-14`). -/
structure LiquidityProvider where
  pubkey : Nat
  deposited_amount : Nat
  shares : Nat
  last_update : Nat
  pending_withdrawal : Option Nat
  deriving Repr, DecidableEq

/-- The `PoolTransaction` history enum (`pool_manager.rs:68-96`). -/
inductive PoolTxn where
  | deposit (provider amount shares_issued : Nat)
  | withdrawal (provider amount shares_burned : Nat)
  | premiumCollected (option_id : String) (amount : Nat)
  | settlementPayout (option_id : String) (amount recipient : Nat)
  | collateralLocked (option_id : String) (amount : Nat)
  | collateralReleased (option_id : String) (amount : Nat)
  deriving Repr, DecidableEq

/-- Rust `PoolManager` (`pool_manager.rs:99-105`); public keys are abstracted
to `Nat`. -/
structure PoolMgr where
  state : PoolState
  providers : List (Nat × LiquidityProvider)
  transaction_history : List (Nat × PoolTxn)
  deriving Repr, DecidableEq

/-- Rust `PoolManager::new` (`pool_manager.rs:108-116`). -/
def PoolMgr.new : PoolMgr :=
  { state := PoolState.new, providers := [], transaction_history := [] }

/-- Rust `PoolManager::add_liquidity` (`pool_manager.rs:119-165`).  The share
count for a non-first depositor is computed in the source through `f64`
(`amount / (total_liquidity / total_shares)` then truncated to `u64`);
it is modelled here by the exact rational floor
`amount * total_shares / total_liquidity`.  No claim proved about this
function depends on the value of that expression. -/
def PoolMgr.add_liquidity (m : PoolMgr) (provider amount block_height : Nat) :
    Except String Nat × PoolMgr :=
  let shares :=
    if m.state.total_shares = 0 then amount
    else amount * m.state.total_shares / m.state.total_liquidity
  let st := { m.state with
    total_liquidity := m.state.total_liquidity + amount
    available_liquidity := m.state.available_liquidity + amount
    total_shares := m.state.total_shares + shares }
  let lp := (lookupA provider m.providers).getD
    { pubkey := provider, deposited_amount := 0, shares := 0
      last_update := block_height, pending_withdrawal := none }
  let lp := { lp with
    deposited_amount := lp.deposited_amount + amount
    shares := lp.shares + shares
    last_update := block_height }
  (.ok shares,
   { state := st
     providers := insertA provider lp m.providers
     transaction_history :=
       (block_height, PoolTxn.deposit provider amount shares) :: m.transaction_history })

/-- Rust `PoolManager::remove_liquidity` (`pool_manager.rs:168-212`).  The
withdraw amount is `shares * (total_liquidity / total_shares)` computed in
`f64` in the source, modelled as the exact floor
`shares * total_liquidity / total_shares`; the claims proved here do not
depend on its value. -/
def PoolMgr.remove_liquidity (m : PoolMgr) (provider shares block_height : Nat) :
    Except String Nat × PoolMgr :=
  match lookupA provider m.providers with
  | none => (.error "Provider not found", m)
  | some lp =>
    if lp.shares < shares then (.error "Insufficient shares", m)
    else
      let withdraw_amount := shares * m.state.total_liquidity / m.state.total_shares
      if m.state.available_liquidity < withdraw_amount then
        (.error "Insufficient available liquidity", m)
      else
        let st := { m.state with
          total_liquidity := m.state.total_liquidity - withdraw_amount
          available_liquidity := m.state.available_liquidity - withdraw_amount
          total_shares := m.state.total_shares - shares }
        let lp := { lp with shares := lp.shares - shares, last_update := block_height }
        (.ok withdraw_amount,
         { state := st
           providers := insertA provider lp m.providers
           transaction_history :=
             (block_height, PoolTxn.withdrawal provider withdraw_amount shares)
               :: m.transaction_history })

/-- Rust `PoolManager::collect_premium` (`pool_manager.rs:215-231`). -/
def PoolMgr.collect_premium (m : PoolMgr) (option_id : String) (amount block_height : Nat) :
    Except String Unit × PoolMgr :=
  (.ok (),
   { m with
     state := { m.state with
       available_liquidity := m.state.available_liquidity + amount
       total_liquidity := m.state.total_liquidity + amount
       total_premium_collected := m.state.total_premium_collected + amount }
     transaction_history :=
       (block_height, PoolTxn.premiumCollected option_id amount) :: m.transaction_history })

/-- Rust `PoolManager::lock_collateral` (`pool_manager.rs:234-253`). -/
def PoolMgr.lock_collateral (m : PoolMgr) (option_id : String) (amount block_height : Nat) :
    Except String Unit × PoolMgr :=
  if m.state.available_liquidity < amount then
    (.error "Insufficient available liquidity", m)
  else
    (.ok (),
     { m with
       state := { m.state with
         available_liquidity := m.state.available_liquidity - amount
         locked_collateral := m.state.locked_collateral + amount }
       transaction_history :=
         (block_height, PoolTxn.collateralLocked option_id amount) :: m.transaction_history })

/-- Rust `PoolManager::release_collateral` (`pool_manager.rs:256-275`). -/
def PoolMgr.release_collateral (m : PoolMgr) (option_id : String) (amount block_height : Nat) :
    Except String Unit × PoolMgr :=
  if m.state.locked_collateral < amount then
    (.error "Insufficient locked collateral", m)
  else
    (.ok (),
     { m with
       state := { m.state with
         locked_collateral := m.state.locked_collateral - amount
         available_liquidity := m.state.available_liquidity + amount }
       transaction_history :=
         (block_height, PoolTxn.collateralReleased option_id amount) :: m.transaction_history })

/-- Rust `PoolManager::payout_settlement` (`pool_manager.rs:278-303`). -/
def PoolMgr.payout_settlement (m : PoolMgr) (option_id : String)
    (amount recipient block_height : Nat) : Except String Unit × PoolMgr :=
  if m.state.locked_collateral < amount then
    (.error "Payout exceeds locked collateral", m)
  else
    (.ok (),
     { m with
       state := { m.state with
         locked_collateral := m.state.locked_collateral - amount
         total_liquidity := m.state.total_liquidity - amount
         total_payout := m.state.total_payout + amount }
       transaction_history :=
         (block_height, PoolTxn.settlementPayout option_id amount recipient)
           :: m.transaction_history })

/-! Claim group: Conservation invariant -/

/-- The pool conservation invariant from the specification:
`total_liquidity == available_liquidity + locked_collateral`. -/
def poolInv (s : PoolState) : Prop :=
  s.total_liquidity = s.available_liquidity + s.locked_collateral

instance (s : PoolState) : Decidable (poolInv s) := by
  unfold poolInv; infer_instance

/-- One call to a mutating `PoolManager` operation, with its arguments. -/
inductive PoolOp where
  | addLiq (provider amount block_height : Nat)
  | removeLiq (provider shares block_height : Nat)
  | premium (option_id : String) (amount block_height : Nat)
  | lock (option_id : String) (amount block_height : Nat)
  | release (option_id : String) (amount block_height : Nat)
  | payout (option_id : String) (amount recipient block_height : Nat)
  deriving Repr

/-- The pool state after one call, whether the call returned `Ok` or an
error (error paths leave the state untouched). -/
def applyPoolOp (m : PoolMgr) : PoolOp → PoolMgr
  | .addLiq p a h => (m.add_liquidity p a h).2
  | .removeLiq p s h => (m.remove_liquidity p s h).2
  | .premium i a h => (m.collect_premium i a h).2
  | .lock i a h => (m.lock_collateral i a h).2
  | .release i a h => (m.release_collateral i a h).2
  | .payout i a r h => (m.payout_settlement i a r h).2

theorem applyPoolOp_inv (m : PoolMgr) (op : PoolOp) (h : poolInv m.state) :
    poolInv (applyPoolOp m op).state := by
  unfold poolInv at h ⊢
  cases op with
  | addLiq p a hh =>
    simp only [applyPoolOp, PoolMgr.add_liquidity]
    omega
  | removeLiq p s hh =>
    simp only [applyPoolOp, PoolMgr.remove_liquidity]
    cases hl : lookupA p m.providers with
    | none => simpa using h
    | some lp =>
      simp only []
      split
      · simpa using h
      · split
        · simpa using h
        · simp only []
          omega
  | premium i a hh =>
    simp only [applyPoolOp, PoolMgr.collect_premium]
    omega
  | lock i a hh =>
    simp only [applyPoolOp, PoolMgr.lock_collateral]
    split
    · simpa using h
    · simp only []
      omega
  | release i a hh =>
    simp only [applyPoolOp, PoolMgr.release_collateral]
    split
    · simpa using h
    · simp only []
      omega
  | payout i a r hh =>
    simp only [applyPoolOp, PoolMgr.payout_settlement]
    split
    · simpa using h
    · simp only []
      omega

theorem foldl_applyPoolOp_inv (ops : List PoolOp) :
    ∀ m : PoolMgr, poolInv m.state → poolInv (ops.foldl applyPoolOp m).state := by
  induction ops with
  | nil => intro m h; exact h
  | cons op t ih =>
    intro m h
    exact ih (applyPoolOp m op) (applyPoolOp_inv m op h)

/-! Component: OptionContract (`option_contract.rs`)

`PublicKey`, `Address` and `Txid` are abstracted to `Nat`/`String`; the
32-byte `bitvmx_commitment` is a `Nat`.  `strike_price`, `quantity`,
`premium` are plain `u64` in the source, whose multiplication wraps in
release builds: products are taken `% 2^64`. -/

/-- Rust `OptionType` (`option_contract.rs:28-31`). -/
inductive OptionType where
  | Call
  | Put
  deriving Repr, DecidableEq

/-- Rust `OptionStatus` (`option_contract.rs:35-40`): four variants, not two. -/
inductive OptionStatus where
  | Active
  | Expired
  | Exercised
  | Settled
  deriving Repr, DecidableEq

/-- Rust `OptionParams` (`option_contract.rs:44-51`). -/
structure OptionParams where
  option_type : OptionType
  strike_price : Nat
  quantity : Nat
  expiry_height : Nat
  premium : Nat
  deriving Repr, DecidableEq

/-- Rust `calculate_collateral` (`option_contract.rs:205-217`): `quantity` for
a Call, `strike_price * quantity / 100_000_000` for a Put. -/
def calculate_collateral (p : OptionParams) : Nat :=
  match p.option_type with
  | .Call => p.quantity
  | .Put => p.strike_price * p.quantity % 2 ^ 64 / 100000000

/-- Rust `OptionContract` (`option_contract.rs:55-67`). -/
structure OptionContract where
  contract_id : String
  params : OptionParams
  status : OptionStatus
  user_pubkey : Nat
  contract_address : Nat
  funding_txid : Option String
  funding_vout : Option Nat
  collateral_amount : Nat
  created_at : Nat
  bitvmx_commitment : Nat
  deriving Repr, DecidableEq

/-- Rust `OptionContract::new` (`option_contract.rs:71-95`): status starts
`Active`, no funding, collateral computed once from the terms. -/
def OptionContract.new (contract_id : String) (params : OptionParams)
    (user_pubkey contract_address bitvmx_commitment now : Nat) : OptionContract :=
  { contract_id := contract_id, params := params, status := .Active
    user_pubkey := user_pubkey, contract_address := contract_address
    funding_txid := none, funding_vout := none
    collateral_amount := calculate_collateral params
    created_at := now, bitvmx_commitment := bitvmx_commitment }

/-- Rust `OptionContract::is_expired` (`option_contract.rs:104-106`). -/
def OptionContract.is_expired (c : OptionContract) (current_height : Nat) : Bool :=
  decide (c.params.expiry_height ≤ current_height)

/-- Rust `OptionContract::is_in_the_money` (`option_contract.rs:109-114`). -/
def OptionContract.is_in_the_money (c : OptionContract) (spot_price : Nat) : Bool :=
  match c.params.option_type with
  | .Call => decide (c.params.strike_price < spot_price)
  | .Put => decide (spot_price < c.params.strike_price)

/-- Rust `OptionContract::calculate_settlement` (`option_contract.rs:117-130`):
zero when out of the money, otherwise
`intrinsic_value * quantity / 100_000_000` (plain `u64` product, wrapping). -/
def OptionContract.calculate_settlement (c : OptionContract) (spot_price : Nat) : Nat :=
  if c.is_in_the_money spot_price = false then 0
  else
    let intrinsic_value :=
      match c.params.option_type with
      | .Call => spot_price - c.params.strike_price
      | .Put => c.params.strike_price - spot_price
    intrinsic_value * c.params.quantity % 2 ^ 64 / 100000000

/-- Rust `OptionContract::get_utxo` (`option_contract.rs:133-138`). -/
def OptionContract.get_utxo (c : OptionContract) : Option (String × Nat) :=
  match c.funding_txid, c.funding_vout with
  | some txid, some vout => some (txid, vout)
  | _, _ => none

/-- Rust `OptionContractManager` (`option_contract.rs:142-145`). -/
structure OptionContractManager where
  contracts : List (String × OptionContract)
  user_contracts : List (Nat × List String)
  deriving Repr, DecidableEq

/-- Rust `OptionContractManager::update_status` (`option_contract.rs:194-201`):
sets the stored contract's status to `new_status` unconditionally,
whatever either status is. -/
def OptionContractManager.update_status (m : OptionContractManager)
    (contract_id : String) (new_status : OptionStatus) :
    Except String Unit × OptionContractManager :=
  match lookupA contract_id m.contracts with
  | none => (.error "Contract not found", m)
  | some _ =>
    (.ok (),
     { m with contracts :=
        updateA contract_id (fun c => { c with status := new_status }) m.contracts })

/-! Claim group: C1 — the settlement formula -/

/-- The settlement formula exactly as the specification states it
(spec §4.4): for an ITM Call `min(collateral, (spot − strike) * quantity
/ spot)`, for an ITM Put `min(collateral, (strike − spot) * quantity /
strike)`, otherwise 0. -/
def specSettlementFormula (p : OptionParams) (collateral spot_price : Nat) : Nat :=
  match p.option_type with
  | .Call =>
    if p.strike_price < spot_price then
      min collateral ((spot_price - p.strike_price) * p.quantity / spot_price)
    else 0
  | .Put =>
    if spot_price < p.strike_price then
      min collateral ((p.strike_price - spot_price) * p.quantity / p.strike_price)
    else 0

/-- The settlement formula the code actually implements: intrinsic value
times quantity divided by `100_000_000`, with no collateral cap. -/
def amendedSettlementFormula (p : OptionParams) (spot_price : Nat) : Nat :=
  match p.option_type with
  | .Call =>
    if p.strike_price < spot_price then
      (spot_price - p.strike_price) * p.quantity % 2 ^ 64 / 100000000
    else 0
  | .Put =>
    if spot_price < p.strike_price then
      (p.strike_price - spot_price) * p.quantity % 2 ^ 64 / 100000000
    else 0

/-- The Call contract of spec §8 scenario 1/2: strike 7,000,000,
quantity 10,000,000 sats, premium 250,000, expiry 800,000. -/
def scenarioCallParams : OptionParams :=
  { option_type := .Call, strike_price := 7000000, quantity := 10000000
    expiry_height := 800000, premium := 250000 }

/-- The scenario Call contract as created by `OptionContract::new`. -/
def scenarioCall : OptionContract :=
  OptionContract.new "CALL-001" scenarioCallParams 2 3 0 0

/-! Claim group: C3 — the payout bound -/

/-- A deep-in-the-money Call: strike 100, quantity 10,000,000 sats. -/
def deepItmCall : OptionContract :=
  OptionContract.new "C3"
    { option_type := .Call, strike_price := 100, quantity := 10000000
      expiry_height := 800000, premium := 1 } 2 3 0 0

/-- The Put contract of spec §8 (strike 6,500,000, quantity 20,000,000). -/
def scenarioPut : OptionContract :=
  OptionContract.new "PUT-001"
    { option_type := .Put, strike_price := 6500000, quantity := 20000000
      expiry_height := 800000, premium := 180000 } 2 3 0 0

/-! Claim group: C8 — contract status transitions -/

/-! Component: SettlementEngine (`settlement.rs`)

`anyhow` errors are modelled by their message strings.  The engine's
`tx_builder` holds only the network tag and is omitted; the settlement
transaction it builds (`bitcoin_utils.rs:146-186`) is modelled
structurally.  `SystemTime::now()` in `create_settlement_request` is the
explicit `now` argument. -/

/-- Rust `SettlementProof` (`settlement.rs:12-20`): untrusted external input. -/
structure SettlementProof where
  option_id : String
  spot_price : Nat
  is_itm : Bool
  settlement_amount : Nat
  bitvmx_proof : List Nat
  merkle_root : Nat
  block_height : Nat
  deriving Repr, DecidableEq

/-- Rust `SettlementStatus` (`settlement.rs:24-30`). -/
inductive SettlementStatus where
  | Pending
  | ProofSubmitted
  | Validated
  | Executed
  | Failed (reason : String)
  deriving Repr, DecidableEq

/-- The transaction built by `TransactionBuilder::build_settlement_tx`
(`bitcoin_utils.rs:146-186`); outputs are `(value, address)` pairs.  The
source stores the resulting `Transaction`, of which only the input
reference, witness proof bytes and outputs are modelled. -/
structure SettlementTx where
  input_utxo : String × Nat
  witness_proof : List Nat
  outputs : List (Nat × Nat)
  deriving Repr, DecidableEq

/-- Rust `TransactionBuilder::build_settlement_tx` (`bitcoin_utils.rs:146-186`):
pays `settlement_amount` to the user when positive, returns
`option_amount − settlement_amount − fee` to the pool when above the
546-sat dust limit.  (`bitcoin::Amount` subtraction panics on underflow in
the source; `Nat` subtraction truncates here.) -/
def build_settlement_tx (option_utxo : String × Nat)
    (option_amount settlement_amount user_address pool_address : Nat)
    (bitvmx_proof : List Nat) (fee : Nat) : SettlementTx :=
  let outputs :=
    if 0 < settlement_amount then [(settlement_amount, user_address)] else []
  let remaining := option_amount - settlement_amount - fee
  let outputs :=
    if 546 < remaining then outputs ++ [(remaining, pool_address)] else outputs
  { input_utxo := option_utxo, witness_proof := bitvmx_proof, outputs := outputs }

/-- Rust `SettlementRequest` (`settlement.rs:33-43`). -/
structure SettlementRequest where
  request_id : String
  option_contract : OptionContract
  spot_price : Nat
  proof : Option SettlementProof
  status : SettlementStatus
  created_at : Nat
  settlement_tx : Option SettlementTx
  deriving Repr, DecidableEq

/-- Rust `SettlementEngine` (`settlement.rs:46-51`). -/
structure SettlementEngine where
  pending_settlements : List (String × SettlementRequest)
  executed_settlements : List (String × SettlementRequest)
  pool_manager : PoolMgr
  deriving Repr, DecidableEq

/-- Rust `SettlementEngine::create_settlement_request` (`settlement.rs:64-92`):
unconditionally snapshots the contract and spot price into a new
`Pending` request — there is no expiry (or any other) check. -/
def SettlementEngine.create_settlement_request (e : SettlementEngine)
    (contract : OptionContract) (spot_price now : Nat) :
    Except String String × SettlementEngine :=
  let request_id := "SETTLE-" ++ contract.contract_id ++ "-" ++ toString now
  let request : SettlementRequest :=
    { request_id := request_id, option_contract := contract
      spot_price := spot_price, proof := none, status := .Pending
      created_at := now, settlement_tx := none }
  (.ok request_id,
   { e with pending_settlements := insertA request_id request e.pending_settlements })

/-- Rust `SettlementEngine::validate_proof` (`settlement.rs:111-130`): option
id, then commitment, then recomputed settlement amount, in that order. -/
def validate_proof (contract : OptionContract) (proof : SettlementProof) :
    Except String Unit :=
  if proof.option_id ≠ contract.contract_id then .error "Option ID mismatch"
  else if proof.merkle_root ≠ contract.bitvmx_commitment then
    .error "Invalid BitVMX commitment"
  else if proof.settlement_amount ≠ contract.calculate_settlement proof.spot_price then
    .error "Settlement amount mismatch"
  else .ok ()

/-- Rust `SettlementEngine::submit_proof` (`settlement.rs:95-108`): on a
validation error the `?` operator propagates it before any mutation; on
success the request stores the proof and moves to `ProofSubmitted`. -/
def SettlementEngine.submit_proof (e : SettlementEngine) (request_id : String)
    (proof : SettlementProof) : Except String Unit × SettlementEngine :=
  match lookupA request_id e.pending_settlements with
  | none => (.error "Settlement request not found", e)
  | some req =>
    match validate_proof req.option_contract proof with
    | .error m => (.error m, e)
    | .ok _ =>
      (.ok (),
       { e with pending_settlements :=
                  updateA request_id
                    (fun r => { r with proof := some proof, status := .ProofSubmitted })
                    e.pending_settlements })

/-- Rust `SettlementEngine::execute_settlement` (`settlement.rs:133-193`).  The
request is `remove`d from `pending_settlements` first; on the success
path the pool pays out (ITM) or releases the collateral (OTM) and the
request lands in `executed_settlements` as `Executed`.  On every error
path after the removal the request is dropped without being re-inserted,
exactly as the source lets the moved-out `request` fall out of scope. -/
def SettlementEngine.execute_settlement (e : SettlementEngine) (request_id : String)
    (user_address pool_address : Nat) : Except String SettlementTx × SettlementEngine :=
  match lookupA request_id e.pending_settlements with
  | none => (.error "Settlement request not found", e)
  | some req =>
    let e1 := { e with pending_settlements := eraseA request_id e.pending_settlements }
    if req.status ≠ .ProofSubmitted then (.error "Proof not submitted", e1)
    else
      match req.proof with
      | none => (.error "Proof not found", e1)
      | some proof =>
        match req.option_contract.get_utxo with
        | none => (.error "Contract UTXO not found", e1)
        | some option_utxo =>
          let settlement_tx := build_settlement_tx option_utxo
            req.option_contract.collateral_amount proof.settlement_amount
            user_address pool_address proof.bitvmx_proof 1000
          match (if proof.is_itm then
              e1.pool_manager.payout_settlement req.option_contract.contract_id
                proof.settlement_amount req.option_contract.user_pubkey
                proof.block_height
            else
              e1.pool_manager.release_collateral req.option_contract.contract_id
                req.option_contract.collateral_amount proof.block_height) with
          | (.error m, pm) => (.error m, { e1 with pool_manager := pm })
          | (.ok _, pm) =>
            (.ok settlement_tx,
             { e1 with
               pool_manager := pm
               executed_settlements := insertA request_id
                 { req with status := .Executed, settlement_tx := some settlement_tx }
                 e1.executed_settlements })

/-! Claim group: C7 — expiry and request creation -/

/-! Claim group: C4 — proof submission -/

/-- A `Pending` request for the scenario Call sitting in the engine. -/
def pendingCallRequest : SettlementRequest :=
  { request_id := "R1", option_contract := scenarioCall, spot_price := 7500000
    proof := none, status := .Pending, created_at := 0, settlement_tx := none }

/-- An engine holding only `pendingCallRequest`. -/
def engineWithPending : SettlementEngine :=
  { pending_settlements := [("R1", pendingCallRequest)]
    executed_settlements := [], pool_manager := PoolMgr.new }

/-- A proof for the scenario Call whose commitment (99) does not match
the contract's stored commitment (0). -/
def badCommitProof : SettlementProof :=
  { option_id := "CALL-001", spot_price := 7500000, is_itm := true
    settlement_amount := 50000, bitvmx_proof := [0], merkle_root := 99
    block_height := 800001 }

/-! Claim group: C5 — single settlement -/

/-- The scenario Call with its funding output observed on-chain. -/
def fundedCall : OptionContract :=
  { scenarioCall with funding_txid := some "tx0", funding_vout := some 0 }

/-- A valid ITM proof for `fundedCall` at spot 7,500,000. -/
def itmProof : SettlementProof :=
  { option_id := "CALL-001", spot_price := 7500000, is_itm := true
    settlement_amount := 50000, bitvmx_proof := [1, 2], merkle_root := 0
    block_height := 800001 }

/-- A `ProofSubmitted` request for `fundedCall`, ready to execute. -/
def readyRequest : SettlementRequest :=
  { request_id := "R5", option_contract := fundedCall, spot_price := 7500000
    proof := some itmProof, status := .ProofSubmitted, created_at := 0
    settlement_tx := none }

/-- An engine whose pool has locked the scenario Call's collateral and
which holds `readyRequest`. -/
def readyEngine : SettlementEngine :=
  { pending_settlements := [("R5", readyRequest)]
    executed_settlements := []
    pool_manager :=
      { state := { total_liquidity := 100250000, available_liquidity := 90250000
                   locked_collateral := 10000000, total_shares := 100000000
                   total_premium_collected := 250000, total_payout := 0 }
        providers := [], transaction_history := [] } }

/-! Component: ScriptBuilder (`bitcoin_option.rs`)

Scripts are modelled structurally as lists of opcodes and pushes.  The
external `bitcoin` library's Taproot machinery (the leaf Merkle root and
the BIP341 key tweak computed by `TaprootBuilder::finalize`) is
abstracted into a `TaprootLib` parameter: `finalize` returns a spend info
whose `output_key` is the tweaked key `tweak internal_key merkle_root`. -/

/-- One element of a Bitcoin script as assembled by `Builder` pushes. -/
inductive ScriptElem where
  | op (opcode : String)
  | pushKey (key : Nat)
  | pushBytes (bytes : List Nat)
  | pushInt (n : Int)
  deriving Repr, DecidableEq

/-- A script is the list of its elements. -/
abbrev Script := List ScriptElem

/-- Rust `BitcoinOption` (`bitcoin_option.rs:11-28`). -/
structure BitcoinOption where
  option_type : OptionType
  strike_price : Nat
  expiry_block : Nat
  buyer_pubkey : Nat
  seller_pubkey : Nat
  verifier_pubkey : Nat
  premium : Nat
  collateral : Nat
  deriving Repr, DecidableEq

/-- Rust `BitcoinOption::create_musig_internal_key` (`bitcoin_option.rs:62-66`):
simplified in the source to return the buyer's key. -/
def BitcoinOption.create_musig_internal_key (o : BitcoinOption) : Nat :=
  o.buyer_pubkey

/-- Rust `BitcoinOption::create_settlement_script` (`bitcoin_option.rs:69-103`),
including the all-zero 32-byte placeholder proof hash. -/
def BitcoinOption.create_settlement_script (o : BitcoinOption) : Script :=
  [ .pushInt (o.expiry_block : Int), .op "OP_CLTV", .op "OP_DROP"
  , .op "OP_DUP", .op "OP_SHA256"
  , .pushBytes (List.replicate 32 0), .op "OP_EQUAL", .op "OP_VERIFY"
  , .pushKey o.verifier_pubkey, .op "OP_CHECKSIGVERIFY"
  , .pushInt 0, .op "OP_GREATERTHAN"
  , .op "OP_IF", .pushKey o.buyer_pubkey
  , .op "OP_ELSE", .pushKey o.seller_pubkey
  , .op "OP_ENDIF", .op "OP_CHECKSIG" ]

/-- Rust `BitcoinOption::create_refund_script` (`bitcoin_option.rs:106-117`). -/
def BitcoinOption.create_refund_script (o : BitcoinOption) : Script :=
  [ .pushInt ((o.expiry_block + 144 : Nat) : Int), .op "OP_CLTV", .op "OP_DROP"
  , .pushKey o.seller_pubkey, .op "OP_CHECKSIG" ]

/-- The data `TaprootBuilder::finalize` returns (`bitcoin` library):
internal key, leaf Merkle root, and the tweaked output key. -/
structure TaprootSpendInfo where
  internal_key : Nat
  merkle_root : Nat
  output_key : Nat
  deriving Repr, DecidableEq

/-- Abstraction of the external `bitcoin` library's Taproot arithmetic:
`merkle_root_of` is the Merkle root of the two depth-1 leaves, and
`tweak k r` is the BIP341 output key `k + H_TapTweak(k ‖ r)·G`.  Both
live in the dependency, not in this repository, so they are parameters;
for a secp256k1 key the tweak never fixes the internal key, which is the
hypothesis of `taproot_script_untweaked`. -/
structure TaprootLib where
  merkle_root_of : Script → Script → Nat
  tweak : Nat → Nat → Nat

/-- Rust `BitcoinOption::create_taproot_script` (`bitcoin_option.rs:33-59`):
builds both leaves, finalizes the Taproot tree (producing the spend info
with the tweaked output key), but then assembles the output script as
`OP_PUSHNUM_1 <internal_xonly>` — pushing the **untweaked internal
key**. -/
def BitcoinOption.create_taproot_script (lib : TaprootLib) (o : BitcoinOption) :
    Script × TaprootSpendInfo :=
  let internal_key := o.create_musig_internal_key
  let settlement_script := o.create_settlement_script
  let refund_script := o.create_refund_script
  let merkle_root := lib.merkle_root_of settlement_script refund_script
  let spend_info : TaprootSpendInfo :=
    { internal_key := internal_key, merkle_root := merkle_root
      output_key := lib.tweak internal_key merkle_root }
  let taproot_output : Script := [.op "OP_PUSHNUM_1", .pushKey internal_key]
  (taproot_output, spend_info)

/-- The scriptPubKey a Taproot output committing to `output_key` must
have under BIP341: `OP_PUSHNUM_1 <output_key>` (this is what the repo's
own `create_option_contract_address`, `bitcoin_utils.rs:55`, produces via
`Address::p2tr_tweaked(tapinfo.output_key())`). -/
def p2tr_script_pubkey (output_key : Nat) : Script :=
  [.op "OP_PUSHNUM_1", .pushKey output_key]

/-- A stand-in for the library arithmetic in which the tweak visibly
moves every key. -/
def demoTaprootLib : TaprootLib :=
  { merkle_root_of := fun _ _ => 0, tweak := fun k _ => k + 1 }

/-- The Call option of the source's own test (`bitcoin_option.rs:197-206`),
with small concrete keys. -/
def demoBitcoinOption : BitcoinOption :=
  { option_type := .Call, strike_price := 50000000, expiry_block := 800000
    buyer_pubkey := 2, seller_pubkey := 3, verifier_pubkey := 5
    premium := 1000000, collateral := 10000000 }

/-! Theorems: the claims, their counterexamples and witnesses. -/

/-- C2: starting from a freshly created pool, after every call (`Ok` or
error) in any sequence of `add_liquidity`, `remove_liquidity`,
`collect_premium`, `lock_collateral`, `release_collateral` and
`payout_settlement`, the pool satisfies
`total_liquidity = available_liquidity + locked_collateral`.  (Every
prefix of a sequence is itself a sequence, so this covers the state after
each intermediate call.) -/
theorem pool_conservation (ops : List PoolOp) :
    poolInv ((ops.foldl applyPoolOp PoolMgr.new).state) :=
  foldl_applyPoolOp_inv ops PoolMgr.new (by decide)

/-- C10: `payout_settlement` rejects any payout exceeding the currently
locked collateral, changing nothing, and it can only succeed when the
amount is at most the locked collateral — so `locked_collateral` never
underflows and a single payout never exceeds the locked collateral. -/
theorem payout_settlement_guard (m : PoolMgr) (option_id : String)
    (amount recipient block_height : Nat) :
    (m.state.locked_collateral < amount →
      m.payout_settlement option_id amount recipient block_height =
        (.error "Payout exceeds locked collateral", m)) ∧
    ((m.payout_settlement option_id amount recipient block_height).1 = .ok () →
      amount ≤ m.state.locked_collateral) := by
  constructor
  · intro hlt
    simp [PoolMgr.payout_settlement, hlt]
  · intro hok
    by_contra hgt
    simp [PoolMgr.payout_settlement, Nat.lt_of_not_le hgt] at hok

/-- Witness for `payout_settlement_guard` at a concrete pool: a payout of
10 against 5 locked sats is rejected with the state unchanged. -/
theorem payout_settlement_guard_witness :
    (PoolMgr.payout_settlement
      { state := { total_liquidity := 5, available_liquidity := 0, locked_collateral := 5
                   total_shares := 0, total_premium_collected := 0, total_payout := 0 }
        providers := [], transaction_history := [] }
      "OPT" 10 7 100) =
    (.error "Payout exceeds locked collateral",
      { state := { total_liquidity := 5, available_liquidity := 0, locked_collateral := 5
                   total_shares := 0, total_premium_collected := 0, total_payout := 0 }
        providers := [], transaction_history := [] }) :=
  (payout_settlement_guard
    { state := { total_liquidity := 5, available_liquidity := 0, locked_collateral := 5
                 total_shares := 0, total_premium_collected := 0, total_payout := 0 }
      providers := [], transaction_history := [] }
    "OPT" 10 7 100).1 (by decide)

/-- C1 counterexample: at the spec's own scenario-2 input (spot
7,500,000) the engine recomputes 50,000 sats
(`(spot−strike)*quantity/100_000_000`), while the spec's formula
`min(collateral, (spot−strike)*quantity/spot)` gives 666,666 — the two
sides differ, so the engine's recomputation does not equal the spec's
formula. -/
theorem settlement_formula_counterexample :
    scenarioCall.calculate_settlement 7500000 = 50000 ∧
    specSettlementFormula scenarioCallParams scenarioCall.collateral_amount 7500000 = 666666 ∧
    scenarioCall.calculate_settlement 7500000 ≠
      specSettlementFormula scenarioCallParams scenarioCall.collateral_amount 7500000 := by
  refine ⟨by decide, by decide, by decide⟩

/-- C1 amended: for every contract built from its terms and every spot
price, the engine's recomputed settlement amount is the intrinsic value
times quantity divided by `100_000_000` when in the money (with the `u64`
product wrapping), else 0 — with no division by the spot/strike price and
no collateral cap. -/
theorem calculate_settlement_amended (p : OptionParams) (cid : String)
    (pk addr comm now spot : Nat) :
    (OptionContract.new cid p pk addr comm now).calculate_settlement spot =
      amendedSettlementFormula p spot := by
  cases hot : p.option_type with
  | Call =>
    by_cases hsp : p.strike_price < spot <;>
      simp [OptionContract.new, OptionContract.calculate_settlement,
        OptionContract.is_in_the_money, amendedSettlementFormula, hot, hsp]
  | Put =>
    by_cases hsp : spot < p.strike_price <;>
      simp [OptionContract.new, OptionContract.calculate_settlement,
        OptionContract.is_in_the_money, amendedSettlementFormula, hot, hsp]

/-- C3 counterexample: a Call with strike 100, quantity 10,000,000 and
spot 200,000,100 settles for 20,000,000 sats, twice its collateral of
10,000,000 sats — the settlement amount is **not** bounded by the
collateral computed at creation. -/
theorem payout_bound_counterexample :
    deepItmCall.collateral_amount = 10000000 ∧
    deepItmCall.calculate_settlement 200000100 = 20000000 ∧
    ¬ deepItmCall.calculate_settlement 200000100 ≤ deepItmCall.collateral_amount := by
  refine ⟨by decide, by decide, by decide⟩

/-- C3 amended: the settlement amount is always ≥ 0, and it is bounded by
the collateral computed at creation for every Put (absent `u64` overflow
of `strike*quantity`), and for a Call only when the intrinsic value
`spot − strike` is at most `100_000_000` (absent overflow of the
intrinsic-value product); a Call whose intrinsic value exceeds
`100_000_000` can settle for more than its collateral. -/
theorem settlement_bounded_amended (c : OptionContract) (spot : Nat)
    (hcol : c.collateral_amount = calculate_collateral c.params) :
    (c.params.option_type = .Put →
      c.params.strike_price * c.params.quantity < 2 ^ 64 →
      c.calculate_settlement spot ≤ c.collateral_amount) ∧
    (c.params.option_type = .Call →
      spot - c.params.strike_price ≤ 100000000 →
      (spot - c.params.strike_price) * c.params.quantity < 2 ^ 64 →
      c.calculate_settlement spot ≤ c.collateral_amount) ∧
    0 ≤ c.calculate_settlement spot := by
  refine ⟨?_, ?_, Nat.zero_le _⟩
  · intro hput hov
    cases hitm : c.is_in_the_money spot with
    | false => simp [OptionContract.calculate_settlement, hitm]
    | true =>
      have hle : (c.params.strike_price - spot) * c.params.quantity ≤
          c.params.strike_price * c.params.quantity :=
        Nat.mul_le_mul_right _ (Nat.sub_le _ _)
      have hov' : (c.params.strike_price - spot) * c.params.quantity < 2 ^ 64 :=
        Nat.lt_of_le_of_lt hle hov
      simp only [OptionContract.calculate_settlement, hitm, hput, hcol,
        calculate_collateral]
      rw [if_neg (by simp)]
      rw [Nat.mod_eq_of_lt hov', Nat.mod_eq_of_lt hov]
      exact Nat.div_le_div_right hle
  · intro hcall hintr hov
    cases hitm : c.is_in_the_money spot with
    | false => simp [OptionContract.calculate_settlement, hitm]
    | true =>
      have hle : (spot - c.params.strike_price) * c.params.quantity ≤
          100000000 * c.params.quantity :=
        Nat.mul_le_mul_right _ hintr
      simp only [OptionContract.calculate_settlement, hitm, hcall, hcol,
        calculate_collateral]
      rw [if_neg (by simp)]
      rw [Nat.mod_eq_of_lt hov]
      calc (spot - c.params.strike_price) * c.params.quantity / 100000000
        ≤ 100000000 * c.params.quantity / 100000000 := Nat.div_le_div_right hle
        _ = c.params.quantity := Nat.mul_div_cancel_left _ (by norm_num)

/-- Witness for `settlement_bounded_amended`: the scenario Put settled at
spot 6,300,000 pays at most its collateral. -/
theorem settlement_bounded_amended_witness :
    scenarioPut.calculate_settlement 6300000 ≤ scenarioPut.collateral_amount :=
  (settlement_bounded_amended scenarioPut 6300000 (by rfl)).1 (by rfl) (by decide)

/-- C8 counterexample: a contract whose status is `Settled` is moved back
to `Active` by `ContractRegistry`'s `update_status` — the status is
neither restricted to {Active, Settled} (the enum has four variants) nor
monotonic once `Settled`. -/
theorem settled_status_not_monotonic_counterexample :
    (lookupA "c" (OptionContractManager.update_status
        { contracts := [("c", { scenarioCall with status := .Settled })]
          user_contracts := [] } "c" .Active).2.contracts).map
      OptionContract.status = some .Active ∧
    (OptionContractManager.update_status
        { contracts := [("c", { scenarioCall with status := .Settled })]
          user_contracts := [] } "c" .Active).1 = .ok () := by
  refine ⟨by decide, by rfl⟩

/-- C8 amended: `update_status` unconditionally overwrites the status of
an existing contract with any requested value (the status enum has four
variants — Active, Expired, Exercised, Settled — and no transition,
including away from `Settled`, is rejected); only a missing contract id
is an error, which leaves the registry unchanged. -/
theorem update_status_amended (m : OptionContractManager) (cid : String)
    (st : OptionStatus) :
    (∀ c, lookupA cid m.contracts = some c →
      (m.update_status cid st).1 = .ok () ∧
      (lookupA cid (m.update_status cid st).2.contracts).map
        OptionContract.status = some st) ∧
    (lookupA cid m.contracts = none →
      m.update_status cid st = (.error "Contract not found", m)) := by
  constructor
  · intro c hc
    refine ⟨by simp [OptionContractManager.update_status, hc], ?_⟩
    simp only [OptionContractManager.update_status, hc]
    rw [lookupA_updateA, hc]
    rfl
  · intro hn
    simp [OptionContractManager.update_status, hn]

/-- Witness for `update_status_amended`: marking the scenario Call
`Settled` in a one-contract registry succeeds. -/
theorem update_status_amended_witness :
    (OptionContractManager.update_status
      { contracts := [("CALL-001", scenarioCall)], user_contracts := [] }
      "CALL-001" .Settled).1 = .ok () :=
  ((update_status_amended
    { contracts := [("CALL-001", scenarioCall)], user_contracts := [] }
    "CALL-001" .Settled).1 scenarioCall (by decide)).1

/-- C7 counterexample: the scenario Call (expiry height 800,000) is not
expired at height 100, yet `create_settlement_request` happily creates a
request for it — the function performs no expiry check at all (it does
not even receive a block height). -/
theorem create_request_no_expiry_check_counterexample :
    scenarioCall.is_expired 100 = false ∧
    (SettlementEngine.create_settlement_request
      { pending_settlements := [], executed_settlements := []
        pool_manager := PoolMgr.new }
      scenarioCall 7500000 42).1 = .ok "SETTLE-CALL-001-42" := by
  refine ⟨by decide, by rfl⟩

/-- C7 amended: `create_settlement_request` never rejects a contract: for
every contract — expired or not — it returns `Ok` with a fresh request id
and stores a `Pending` snapshot of the contract and spot price; expiry
filtering happens only in callers
(`OptionContractManager::get_expired_contracts`). -/
theorem create_request_amended (e : SettlementEngine) (c : OptionContract)
    (spot now : Nat) :
    ∃ rid, (e.create_settlement_request c spot now).1 = .ok rid ∧
      lookupA rid (e.create_settlement_request c spot now).2.pending_settlements =
        some { request_id := rid, option_contract := c, spot_price := spot
               proof := none, status := .Pending, created_at := now
               settlement_tx := none } := by
  refine ⟨"SETTLE-" ++ c.contract_id ++ "-" ++ toString now, rfl, ?_⟩
  exact lookupA_insertA _ _ _

/-- C4 amended: for a request present in `pending_settlements`,
`submit_proof` validates the option id, then the commitment, then the
independently recomputed settlement amount, in that order; any failure
returns the corresponding error with the engine state — pool counters and
the request's status — completely unchanged (the status is **not** set to
`Failed`); success stores the proof and sets `ProofSubmitted`. -/
theorem submit_proof_amended (e : SettlementEngine) (rid : String)
    (p : SettlementProof) (req : SettlementRequest)
    (hreq : lookupA rid e.pending_settlements = some req) :
    ((e.submit_proof rid p).2.pool_manager = e.pool_manager) ∧
    (p.option_id ≠ req.option_contract.contract_id →
      e.submit_proof rid p = (.error "Option ID mismatch", e)) ∧
    (p.option_id = req.option_contract.contract_id →
      p.merkle_root ≠ req.option_contract.bitvmx_commitment →
      e.submit_proof rid p = (.error "Invalid BitVMX commitment", e)) ∧
    (p.option_id = req.option_contract.contract_id →
      p.merkle_root = req.option_contract.bitvmx_commitment →
      p.settlement_amount ≠ req.option_contract.calculate_settlement p.spot_price →
      e.submit_proof rid p = (.error "Settlement amount mismatch", e)) ∧
    (p.option_id = req.option_contract.contract_id →
      p.merkle_root = req.option_contract.bitvmx_commitment →
      p.settlement_amount = req.option_contract.calculate_settlement p.spot_price →
      (e.submit_proof rid p).1 = .ok () ∧
      lookupA rid (e.submit_proof rid p).2.pending_settlements =
        some { req with proof := some p, status := .ProofSubmitted }) := by
  refine ⟨?_, ?_, ?_, ?_, ?_⟩
  · cases hv : validate_proof req.option_contract p with
    | error m => simp [SettlementEngine.submit_proof, hreq, hv]
    | ok u => simp [SettlementEngine.submit_proof, hreq, hv]
  · intro hid
    have hv : validate_proof req.option_contract p = .error "Option ID mismatch" := by
      simp [validate_proof, hid]
    simp [SettlementEngine.submit_proof, hreq, hv]
  · intro hid hcomm
    have hv : validate_proof req.option_contract p =
        .error "Invalid BitVMX commitment" := by
      simp [validate_proof, hid, hcomm]
    simp [SettlementEngine.submit_proof, hreq, hv]
  · intro hid hcomm hamt
    have hv : validate_proof req.option_contract p =
        .error "Settlement amount mismatch" := by
      simp [validate_proof, hid, hcomm, hamt]
    simp [SettlementEngine.submit_proof, hreq, hv]
  · intro hid hcomm hamt
    have hv : validate_proof req.option_contract p = .ok () := by
      simp [validate_proof, hid, hcomm, hamt]
    refine ⟨by simp [SettlementEngine.submit_proof, hreq, hv], ?_⟩
    simp only [SettlementEngine.submit_proof, hreq, hv]
    rw [lookupA_updateA, hreq]
    rfl

/-- Witness for `submit_proof_amended`: submitting `badCommitProof` is
rejected with `Invalid BitVMX commitment` and the engine is unchanged. -/
theorem submit_proof_amended_witness :
    engineWithPending.submit_proof "R1" badCommitProof =
      (.error "Invalid BitVMX commitment", engineWithPending) :=
  (submit_proof_amended engineWithPending "R1" badCommitProof pendingCallRequest
    (by rfl)).2.2.1 (by rfl) (by decide)

/-- C4 counterexample: after the failed submission of `badCommitProof`
the request's status is still `Pending` — `submit_proof` never sets the
status to `Failed` (no code path constructs `SettlementStatus::Failed`). -/
theorem submit_proof_failed_status_counterexample :
    (engineWithPending.submit_proof "R1" badCommitProof).1 =
      .error "Invalid BitVMX commitment" ∧
    (lookupA "R1"
        (engineWithPending.submit_proof "R1" badCommitProof).2.pending_settlements).map
      SettlementRequest.status = some .Pending := by
  refine ⟨by rfl, by rfl⟩

theorem execute_settlement_ok_shape (e : SettlementEngine) (rid : String)
    (ua pa : Nat) (tx : SettlementTx)
    (h : (e.execute_settlement rid ua pa).1 = .ok tx) :
    (e.execute_settlement rid ua pa).2.pending_settlements =
      eraseA rid e.pending_settlements ∧
    (∃ req, lookupA rid e.pending_settlements = some req ∧
      req.status = .ProofSubmitted) := by
  cases hl : lookupA rid e.pending_settlements with
  | none => simp [SettlementEngine.execute_settlement, hl] at h
  | some req =>
    by_cases hst : req.status = .ProofSubmitted
    · cases hp : req.proof with
      | none =>
        simp [SettlementEngine.execute_settlement, hl, hst, hp] at h
      | some proof =>
        cases hu : req.option_contract.get_utxo with
        | none =>
          simp [SettlementEngine.execute_settlement, hl, hst, hp, hu] at h
        | some utxo =>
          refine ⟨?_, ⟨req, rfl, hst⟩⟩
          simp only [SettlementEngine.execute_settlement, hl, hst, hp, hu]
          rcases hpr : (if proof.is_itm then
              PoolMgr.payout_settlement
                { e with pending_settlements :=
                    eraseA rid e.pending_settlements }.pool_manager
                req.option_contract.contract_id proof.settlement_amount
                req.option_contract.user_pubkey proof.block_height
            else
              PoolMgr.release_collateral
                { e with pending_settlements :=
                    eraseA rid e.pending_settlements }.pool_manager
                req.option_contract.contract_id
                req.option_contract.collateral_amount proof.block_height)
            with ⟨res, pm⟩
          cases res with
          | error m => simp [hpr]
          | ok u => simp [hpr]
    · simp [SettlementEngine.execute_settlement, hl, hst] at h

/-- C5 amended: `execute_settlement` succeeds only for a request whose
status is `ProofSubmitted`, and after a successful call the request is no
longer pending, so a second call on the same request id fails with
`Settlement request not found` (not `AlreadySettled` — no such error
exists in the engine) and leaves the whole engine state, pool counters
included, unchanged. -/
theorem double_execute_amended (e : SettlementEngine) (rid : String)
    (ua pa : Nat) (tx : SettlementTx)
    (h : (e.execute_settlement rid ua pa).1 = .ok tx) :
    (∃ req, lookupA rid e.pending_settlements = some req ∧
      req.status = .ProofSubmitted) ∧
    (e.execute_settlement rid ua pa).2.execute_settlement rid ua pa =
      (.error "Settlement request not found",
        (e.execute_settlement rid ua pa).2) := by
  obtain ⟨hpend, hex⟩ := execute_settlement_ok_shape e rid ua pa tx h
  refine ⟨hex, ?_⟩
  have hnone : lookupA rid
      (e.execute_settlement rid ua pa).2.pending_settlements = none := by
    rw [hpend]; exact lookupA_eraseA _ _
  generalize hg : (e.execute_settlement rid ua pa).2 = e2 at hnone ⊢
  simp [SettlementEngine.execute_settlement, hnone]

/-- C5 counterexample: the first `execute_settlement` on `readyEngine`
succeeds, and the immediate second call on the same request id fails with
`Settlement request not found` — not `AlreadySettled` — while changing
nothing. -/
theorem double_execute_counterexample :
    (readyEngine.execute_settlement "R5" 11 12).1 = .ok
      { input_utxo := ("tx0", 0), witness_proof := [1, 2]
        outputs := [(50000, 11), (9949000, 12)] } ∧
    ((readyEngine.execute_settlement "R5" 11 12).2.execute_settlement
        "R5" 11 12).1 = .error "Settlement request not found" ∧
    ((readyEngine.execute_settlement "R5" 11 12).2.execute_settlement
        "R5" 11 12).2 = (readyEngine.execute_settlement "R5" 11 12).2 := by
  refine ⟨by rfl, by rfl, by rfl⟩

/-- Witness for `double_execute_amended` at `readyEngine`. -/
theorem double_execute_amended_witness :
    (readyEngine.execute_settlement "R5" 11 12).2.execute_settlement "R5" 11 12 =
      (.error "Settlement request not found",
        (readyEngine.execute_settlement "R5" 11 12).2) :=
  (double_execute_amended readyEngine "R5" 11 12
    { input_utxo := ("tx0", 0), witness_proof := [1, 2]
      outputs := [(50000, 11), (9949000, 12)] } (by rfl)).2

/-- C6: whenever the BIP341 tweak moves the internal key (which it always
does for a real secp256k1 tweak), the script returned by
`create_taproot_script` is **not** the Taproot scriptPubKey of the output
key carried in the returned spend info — the output pays to the untweaked
internal key, so the spend info's control blocks can never satisfy either
leaf against it. -/
theorem taproot_script_untweaked (lib : TaprootLib) (o : BitcoinOption)
    (h : lib.tweak o.create_musig_internal_key
          (lib.merkle_root_of o.create_settlement_script o.create_refund_script) ≠
        o.create_musig_internal_key) :
    (o.create_taproot_script lib).1 ≠
      p2tr_script_pubkey (o.create_taproot_script lib).2.output_key := by
  intro heq
  simp only [BitcoinOption.create_taproot_script, p2tr_script_pubkey,
    List.cons.injEq, ScriptElem.pushKey.injEq, and_true, true_and] at heq
  exact h heq.symm

/-- Witness for `taproot_script_untweaked` at `demoBitcoinOption`. -/
theorem taproot_script_untweaked_witness :
    (demoBitcoinOption.create_taproot_script demoTaprootLib).1 ≠
      p2tr_script_pubkey
        (demoBitcoinOption.create_taproot_script demoTaprootLib).2.output_key :=
  taproot_script_untweaked demoTaprootLib demoBitcoinOption (by decide)

end OracleVM
